import Mathlib

/-!
# Verification of the `rowing` repository against its specification

The repository is a Turborepo scaffold whose only executable application
code is the landing-page component `Home` in
`apps/rowing/src/app/page.tsx`.  The specification additionally gives a
design for a live rowing session coordination core that has no
implementation in the source; that core is modelled here from the spec's
own words (each such definition is marked `Modelled from the spec:`).

Part 1 embeds the landing page and an inventory of the source's
executable code.  Part 2 models the session coordination core
(data model, state store, ingestion, lifecycle) and proves the spec's
claimed invariants about it.
-/

/-! ## Part 1 — the landing page (`apps/rowing/src/app/page.tsx`) -/

/-- Abstract syntax of the element trees the landing page builds: the
`div`/`p` HTML nodes and the `Card*`/`Button` components imported from
`@repo/ui`.  `button` carries the optional `variant` prop (the source
passes `variant="outline"` on the second button and nothing on the
first). -/
inductive UIElement where
  | div (className : String) (children : List UIElement)
  | card (className : String) (children : List UIElement)
  | cardHeader (children : List UIElement)
  | cardTitle (className : String) (children : List UIElement)
  | cardContent (className : String) (children : List UIElement)
  | p (className : String) (children : List UIElement)
  | button (variant : Option String) (children : List UIElement)
  | text (s : String)

/-- Everything a Next.js page component could observe when it is
rendered: the request path, its query parameters, and backend state.
The source's `Home` takes no props and reads none of this; the embedding
therefore takes a `RenderContext` argument and ignores it, which is what
lets us state that the page is input-independent. -/
structure RenderContext where
  requestPath : String
  searchParams : List (String × String)
  backendState : Nat → Nat

/-- The default-exported `Home` component of
`apps/rowing/src/app/page.tsx` (lines 4–24), translated node by node
from the JSX it returns. -/
def Home (_ctx : RenderContext) : UIElement :=
  .div "min-h-screen flex items-center justify-center p-8"
    [.card "w-full max-w-md"
      [.cardHeader
        [.cardTitle "text-2xl" [.text "Welcome to Rowing"]],
       .cardContent "space-y-4"
        [.p "text-muted-foreground"
          [.text "Track your rowing activities and compete with others in single and multiplayer sessions."],
         .div "flex gap-4"
          [.button none [.text "Get Started"],
           .button (some "outline") [.text "Learn More"]]]]]

mutual

/-- All `card` nodes of an element tree, in document order. -/
def UIElement.cards : UIElement → List UIElement
  | .div _ cs | .cardHeader cs | .cardTitle _ cs | .cardContent _ cs
  | .p _ cs | .button _ cs => cardsList cs
  | .card cl cs => .card cl cs :: cardsList cs
  | .text _ => []

/-- `UIElement.cards` over a list of sibling nodes. -/
def cardsList : List UIElement → List UIElement
  | [] => []
  | e :: es => e.cards ++ cardsList es

end

mutual

/-- All `button` nodes of an element tree, in document order. -/
def UIElement.buttons : UIElement → List UIElement
  | .div _ cs | .card _ cs | .cardHeader cs | .cardTitle _ cs
  | .cardContent _ cs | .p _ cs => buttonsList cs
  | .button v cs => .button v cs :: buttonsList cs
  | .text _ => []

/-- `UIElement.buttons` over a list of sibling nodes. -/
def buttonsList : List UIElement → List UIElement
  | [] => []
  | e :: es => e.buttons ++ buttonsList es

end

mutual

/-- All text fragments of an element tree, in document order. -/
def UIElement.allTexts : UIElement → List String
  | .div _ cs | .card _ cs | .cardHeader cs | .cardTitle _ cs
  | .cardContent _ cs | .p _ cs | .button _ cs => allTextsList cs
  | .text s => [s]

/-- `UIElement.allTexts` over a list of sibling nodes. -/
def allTextsList : List UIElement → List String
  | [] => []
  | e :: es => e.allTexts ++ allTextsList es

end

mutual

/-- The strings of all `cardTitle` nodes of an element tree. -/
def UIElement.cardTitleTexts : UIElement → List String
  | .div _ cs | .card _ cs | .cardHeader cs | .cardContent _ cs
  | .p _ cs | .button _ cs => cardTitleTextsList cs
  | .cardTitle _ cs => allTextsList cs
  | .text _ => []

/-- `UIElement.cardTitleTexts` over a list of sibling nodes. -/
def cardTitleTextsList : List UIElement → List String
  | [] => []
  | e :: es => e.cardTitleTexts ++ cardTitleTextsList es

end

mutual

/-- The strings of all `p` (paragraph) nodes of an element tree. -/
def UIElement.paragraphTexts : UIElement → List String
  | .div _ cs | .card _ cs | .cardHeader cs | .cardTitle _ cs
  | .cardContent _ cs | .button _ cs => paragraphTextsList cs
  | .p _ cs => allTextsList cs
  | .text _ => []

/-- `UIElement.paragraphTexts` over a list of sibling nodes. -/
def paragraphTextsList : List UIElement → List String
  | [] => []
  | e :: es => e.paragraphTexts ++ paragraphTextsList es

end

/-- Names of the functions and components defined by the source's
executable application code.  The repository's only application source
file is `apps/rowing/src/app/page.tsx`, which defines exactly the
component `Home`; the remaining files are documentation
(`README`, `.github/INITIAL_INSTRUCTIONS.md`, skill and package docs)
and build configuration (`packages/eslint-config/next.js`), which define
no application operations. -/
def sourceExecutableDefinitions : List String := ["Home"]

/-- The operations the specification designs for the live-session
coordination core (§4 of the spec). -/
def coreOperationNames : List String :=
  ["applyEvent", "getSnapshot", "submit", "publish", "subscribe",
   "createSession", "join", "start", "pause", "resume", "complete"]

/-! ## Part 2 — the live-session coordination core

No implementation of this core exists in the source; every definition in
this part is modelled from the specification's design (§3–§5 and §7 of
the spec) and says so in its doc comment. -/

/-- Modelled from the spec: the session lifecycle states of §4.4,
`Created -> Active -> Paused <-> Active -> Completed`, plus `Abandoned`. -/
inductive SessionState where
  | Created
  | Active
  | Paused
  | Completed
  | Abandoned
deriving DecidableEq, Repr

/-- Modelled from the spec: `Completed` and `Abandoned` are the terminal
states of §4.4. -/
def SessionState.isTerminal : SessionState → Bool
  | .Completed | .Abandoned => true
  | _ => false

/-- Modelled from the spec: the error taxonomy of §7. -/
inductive CoreError where
  | NotFoundError
  | StaleEventError
  | SessionClosedError
  | ValidationError
deriving DecidableEq, Repr

/-- Modelled from the spec: a telemetry payload (§3) — stroke rate and
distance delta.  The delta is an integer so that the "negative distance
delta" range check of §4.2 is meaningful. -/
structure Payload where
  strokeRate : Nat
  distanceDelta : Int
deriving DecidableEq, Repr

/-- Modelled from the spec: a raw, not yet validated event as submitted
by a client (§4.2): a client-reported timestamp and a payload. -/
structure RawEvent where
  clientTimestamp : Nat
  payload : Payload
deriving DecidableEq, Repr

/-- Modelled from the spec: an accepted `TelemetryEvent` (§3) — session
and participant references, client-reported timestamp, server-assigned
timestamp and sequence number, and the payload.  Immutable once
accepted. -/
structure TelemetryEvent where
  sessionId : Nat
  participantId : Nat
  clientTimestamp : Nat
  serverTimestamp : Nat
  seq : Nat
  payload : Payload
deriving DecidableEq, Repr

/-- Modelled from the spec: a `Participant` (§3) — user reference, join
timestamp, cumulative metrics (distance, stroke count, elapsed time),
connection status, plus the last accepted client timestamp used by the
monotonicity check of §4.2. -/
structure Participant where
  userId : Nat
  joinTimestamp : Nat
  distance : Int
  strokeCount : Nat
  elapsedTime : Nat
  connected : Bool
  lastClientTimestamp : Nat
deriving DecidableEq, Repr

/-- Modelled from the spec: a `Session` (§3) — identifier, owner,
lifecycle state, creation timestamp, ordered participants, the
monotonically increasing sequence counter, and the ordered log of
accepted events. -/
structure Session where
  id : Nat
  ownerId : Nat
  state : SessionState
  createdAt : Nat
  participants : List Participant
  seqCounter : Nat
  eventLog : List TelemetryEvent
deriving DecidableEq, Repr

/-- Modelled from the spec: the read-only per-participant part of a
`SessionSnapshot` (§3). -/
structure ParticipantView where
  userId : Nat
  distance : Int
  strokeCount : Nat
  elapsedTime : Nat
  connected : Bool
deriving DecidableEq, Repr

/-- Modelled from the spec: a `SessionSnapshot` (§3) — the derived,
read-only aggregate view of a session, regenerated on each accepted
event. -/
structure SessionSnapshot where
  sessionId : Nat
  state : SessionState
  seqCounter : Nat
  participants : List ParticipantView
deriving DecidableEq, Repr

/-- Modelled from the spec: the view of one participant inside a
snapshot. -/
def Participant.view (p : Participant) : ParticipantView :=
  { userId := p.userId, distance := p.distance, strokeCount := p.strokeCount,
    elapsedTime := p.elapsedTime, connected := p.connected }

/-- Modelled from the spec: derive the current `SessionSnapshot` of a
session (§3, §4.1). -/
def snapshotOf (s : Session) : SessionSnapshot :=
  { sessionId := s.id, state := s.state, seqCounter := s.seqCounter,
    participants := s.participants.map Participant.view }

/-- Modelled from the spec: `createSession(ownerId)` of §4.4 —
initializes a session in `Created` with no participants, sequence
counter zero and an empty event log. -/
def createSession (sid ownerId now : Nat) : Session :=
  { id := sid, ownerId := ownerId, state := .Created, createdAt := now,
    participants := [], seqCounter := 0, eventLog := [] }

/-- Modelled from the spec: a fresh participant record at join time
(§3): zero cumulative metrics, connected. -/
def freshParticipant (uid now : Nat) : Participant :=
  { userId := uid, joinTimestamp := now, distance := 0, strokeCount := 0,
    elapsedTime := 0, connected := true, lastClientTimestamp := 0 }

/-- Modelled from the spec: `join(sessionId, userId)` of §4.4 — allowed
only in `Created` or `Active`, otherwise `SessionClosedError`; a user
already present is rejected with `ValidationError` (a participant is
bound to the session at most once, §3). -/
def Session.join (s : Session) (uid now : Nat) : Except CoreError Session :=
  match s.state with
  | .Created | .Active =>
    if s.participants.any (fun p => p.userId == uid) then
      .error .ValidationError
    else
      .ok { s with participants := s.participants ++ [freshParticipant uid now] }
  | _ => .error .SessionClosedError

/-- Modelled from the spec: `start(sessionId)` of §4.4 —
`Created -> Active`; fails if already active or terminal. -/
def Session.start (s : Session) : Except CoreError Session :=
  match s.state with
  | .Created => .ok { s with state := .Active }
  | _ => .error .SessionClosedError

/-- Modelled from the spec: `pause` of §4.4 — `Active -> Paused`. -/
def Session.pause (s : Session) : Except CoreError Session :=
  match s.state with
  | .Active => .ok { s with state := .Paused }
  | _ => .error .SessionClosedError

/-- Modelled from the spec: `resume` of §4.4 — `Paused -> Active`. -/
def Session.resume (s : Session) : Except CoreError Session :=
  match s.state with
  | .Paused => .ok { s with state := .Active }
  | _ => .error .SessionClosedError

/-- Modelled from the spec: `complete(sessionId)` of §4.4 — any
non-terminal state goes to `Completed`; on a terminal state the
operation fails with `SessionClosedError`. -/
def Session.complete (s : Session) : Except CoreError Session :=
  if s.state.isTerminal then .error .SessionClosedError
  else .ok { s with state := .Completed }

/-- Modelled from the spec: the timeout-driven background transition to
`Abandoned` of §4.4, possible from `Active` or `Paused`. -/
def Session.abandon (s : Session) : Except CoreError Session :=
  match s.state with
  | .Active | .Paused => .ok { s with state := .Abandoned }
  | _ => .error .SessionClosedError

/-- Modelled from the spec: the tolerance window (§4.2) within which a
client timestamp may run behind the participant's last accepted client
timestamp before it counts as non-monotonic. -/
def clockTolerance : Nat := 1000

/-- Modelled from the spec: recompute one participant's cumulative
metrics (§3, §4.1) for one accepted event authored by that participant:
one completed stroke, the distance delta added, elapsed time and the
last client timestamp advanced. -/
def applyPayloadFor (p : Participant) (e : TelemetryEvent) : Participant :=
  { p with
    strokeCount := p.strokeCount + 1,
    distance := p.distance + e.payload.distanceDelta,
    elapsedTime := max p.elapsedTime (e.serverTimestamp - p.joinTimestamp),
    lastClientTimestamp := max p.lastClientTimestamp e.clientTimestamp }

/-- Modelled from the spec: `applyEvent(session, event)` of §4.1 — fails
with `StaleEventError` whenever the event's sequence number is not the
expected next value (the sequence counter plus one) and otherwise
recomputes the author's cumulative metrics, appends the event to the
ordered log, advances the counter, and returns the new snapshot. -/
def applyEvent (s : Session) (e : TelemetryEvent) :
    Except CoreError (Session × SessionSnapshot) :=
  if e.seq ≠ s.seqCounter + 1 then .error .StaleEventError
  else
    let s' := { s with
      participants := s.participants.map
        (fun p => if p.userId == e.participantId then applyPayloadFor p e else p),
      seqCounter := e.seq,
      eventLog := s.eventLog ++ [e] }
    .ok (s', snapshotOf s')

/-- Modelled from the spec: `applyEvent` as a state transformer; a
failed application leaves the session untouched (rejected events are not
persisted, §3). -/
def applyEventRun (s : Session) (e : TelemetryEvent) : Session :=
  match applyEvent s e with
  | .ok (s', _) => s'
  | .error _ => s

/-- Modelled from the spec: the payload range checks of §4.2 — a
negative distance delta is rejected, and a client timestamp that is
non-monotonic beyond the tolerance window is rejected. -/
def validRawEvent (p : Participant) (r : RawEvent) : Bool :=
  0 ≤ r.payload.distanceDelta &&
    p.lastClientTimestamp ≤ r.clientTimestamp + clockTolerance

/-- Modelled from the spec: build the accepted `TelemetryEvent` for a
raw submission (§4.2) — the server assigns the next sequence number
(the session's counter plus one) and the server-side timestamp. -/
def mkEvent (s : Session) (uid : Nat) (r : RawEvent) (serverNow : Nat) :
    TelemetryEvent :=
  { sessionId := s.id, participantId := uid,
    clientTimestamp := r.clientTimestamp, serverTimestamp := serverNow,
    seq := s.seqCounter + 1, payload := r.payload }

/-- Modelled from the spec: `submit(sessionId, participantId, rawEvent)`
of §4.2 — rejects with `SessionClosedError` when the session is not in
`Active` state, with `NotFoundError` when the participant is not a
current member, with `ValidationError` when the payload fails the range
checks; otherwise assigns the next sequence number, timestamps the event
server-side, and applies it.  Rejected events are not persisted. -/
def submit (s : Session) (uid : Nat) (r : RawEvent) (serverNow : Nat) :
    Except CoreError (Session × TelemetryEvent × SessionSnapshot) :=
  if s.state ≠ .Active then .error .SessionClosedError
  else
    match s.participants.find? (fun p => p.userId == uid) with
    | none => .error .NotFoundError
    | some p =>
      if validRawEvent p r then
        (applyEvent s (mkEvent s uid r serverNow)).map
          (fun x => (x.1, mkEvent s uid r serverNow, x.2))
      else .error .ValidationError

/-- Modelled from the spec: the commands a client or the background
timeout can direct at one session (§4.2, §4.4). -/
inductive Op where
  | join (uid now : Nat)
  | start
  | pause
  | resume
  | complete
  | abandon
  | submit (uid : Nat) (r : RawEvent) (serverNow : Nat)
deriving DecidableEq, Repr

/-- Modelled from the spec: execute one command against one session,
returning the new session state and the snapshots broadcast by the
command (§2, §4.3, §4.4): each accepted event broadcasts the regenerated
snapshot, and `complete` triggers the final snapshot broadcast.  A
failed command mutates nothing and broadcasts nothing. -/
def execOp (op : Op) (s : Session) : Session × List SessionSnapshot :=
  match op with
  | .join uid now =>
    match s.join uid now with
    | .ok s' => (s', [])
    | .error _ => (s, [])
  | .start =>
    match s.start with
    | .ok s' => (s', [])
    | .error _ => (s, [])
  | .pause =>
    match s.pause with
    | .ok s' => (s', [])
    | .error _ => (s, [])
  | .resume =>
    match s.resume with
    | .ok s' => (s', [])
    | .error _ => (s, [])
  | .complete =>
    match s.complete with
    | .ok s' => (s', [snapshotOf s'])
    | .error _ => (s, [])
  | .abandon =>
    match s.abandon with
    | .ok s' => (s', [])
    | .error _ => (s, [])
  | .submit uid r now =>
    match submit s uid r now with
    | .ok (s', _, snap) => (s', [snap])
    | .error _ => (s, [])

/-- Modelled from the spec: run a sequence of commands against one
session, keeping only the session state. -/
def runOps (ops : List Op) (s : Session) : Session :=
  ops.foldl (fun s op => (execOp op s).1) s

/-- Modelled from the spec: the global session registry of §9 — the
live sessions, keyed by their `id` field. -/
abbrev Store := List Session

/-- Modelled from the spec: one mutation of the registry, naming the
session it targets and the command to run there (§5: all mutations to a
given session are serialized, so each mutation is one atomic step on one
session). -/
structure StoreOp where
  sid : Nat
  op : Op
deriving DecidableEq, Repr

/-- Modelled from the spec: apply one serialized mutation to the
registry; sessions other than the targeted one are untouched. -/
def execStoreOp (st : Store) (sop : StoreOp) : Store :=
  st.map (fun s => if s.id == sop.sid then (execOp sop.op s).1 else s)

/-- Modelled from the spec: run an arbitrary interleaving of mutations
(one per step, each targeting one session) against the registry. -/
def runStore (sops : List StoreOp) (st : Store) : Store :=
  sops.foldl execStoreOp st

/-- Modelled from the spec: `getSnapshot(sessionId)` of §4.1 — returns
the current snapshot; fails with `NotFoundError` if the session is
unknown or already terminated. -/
def getSnapshot (st : Store) (sid : Nat) : Except CoreError SessionSnapshot :=
  match st.find? (fun s => s.id == sid) with
  | none => .error .NotFoundError
  | some s =>
    if s.state.isTerminal then .error .NotFoundError
    else .ok (snapshotOf s)

/-! ### Helper lemmas -/

/-- A successful submission appends exactly one event carrying the next
sequence number, advances the counter by one, and touches no other
session-identifying field. -/
theorem submit_ok_shape (s : Session) (uid : Nat) (r : RawEvent) (now : Nat)
    (s' : Session) (ev : TelemetryEvent) (snap : SessionSnapshot)
    (h : submit s uid r now = .ok (s', ev, snap)) :
    s'.eventLog = s.eventLog ++ [ev] ∧ ev.seq = s.seqCounter + 1 ∧
    s'.seqCounter = s.seqCounter + 1 ∧ s'.id = s.id ∧ s'.state = s.state := by
  unfold submit at h
  split at h
  · simp at h
  · split at h
    · simp at h
    · split at h
      · unfold applyEvent at h
        rw [if_neg (by simp [mkEvent])] at h
        simp [Except.map] at h
        obtain ⟨hs, hev, _⟩ := h
        subst hs; subst hev
        simp [mkEvent]
      · simp at h

/-- A successful `join` changes only the participant list. -/
theorem join_ok_fields (s : Session) (uid now : Nat) (s' : Session)
    (h : s.join uid now = .ok s') :
    s'.id = s.id ∧ s'.eventLog = s.eventLog ∧ s'.seqCounter = s.seqCounter := by
  unfold Session.join at h
  split at h
  · split at h
    · simp at h
    · simp only [Except.ok.injEq] at h
      subst h; simp
  · split at h
    · simp at h
    · simp only [Except.ok.injEq] at h
      subst h; simp
  · simp at h

/-- A successful `start` changes only the lifecycle state. -/
theorem start_ok_fields (s : Session) (s' : Session)
    (h : s.start = .ok s') :
    s'.id = s.id ∧ s'.eventLog = s.eventLog ∧ s'.seqCounter = s.seqCounter := by
  unfold Session.start at h
  split at h
  · simp only [Except.ok.injEq] at h
    subst h; simp
  · simp at h

/-- A successful `pause` changes only the lifecycle state. -/
theorem pause_ok_fields (s : Session) (s' : Session)
    (h : s.pause = .ok s') :
    s'.id = s.id ∧ s'.eventLog = s.eventLog ∧ s'.seqCounter = s.seqCounter := by
  unfold Session.pause at h
  split at h
  · simp only [Except.ok.injEq] at h
    subst h; simp
  · simp at h

/-- A successful `resume` changes only the lifecycle state. -/
theorem resume_ok_fields (s : Session) (s' : Session)
    (h : s.resume = .ok s') :
    s'.id = s.id ∧ s'.eventLog = s.eventLog ∧ s'.seqCounter = s.seqCounter := by
  unfold Session.resume at h
  split at h
  · simp only [Except.ok.injEq] at h
    subst h; simp
  · simp at h

/-- A successful `complete` changes only the lifecycle state. -/
theorem complete_ok_fields (s : Session) (s' : Session)
    (h : s.complete = .ok s') :
    s'.id = s.id ∧ s'.eventLog = s.eventLog ∧ s'.seqCounter = s.seqCounter := by
  unfold Session.complete at h
  split at h
  · simp at h
  · simp only [Except.ok.injEq] at h
    subst h; simp

/-- A successful `abandon` changes only the lifecycle state. -/
theorem abandon_ok_fields (s : Session) (s' : Session)
    (h : s.abandon = .ok s') :
    s'.id = s.id ∧ s'.eventLog = s.eventLog ∧ s'.seqCounter = s.seqCounter := by
  unfold Session.abandon at h
  split at h
  · simp only [Except.ok.injEq] at h
    subst h; simp
  · simp only [Except.ok.injEq] at h
    subst h; simp
  · simp at h

/-- Every command leaves the session identifier unchanged and either
leaves the event log and sequence counter alone (lifecycle commands and
every rejected command), or — an accepted submission — appends exactly
one event carrying the next sequence number and advances the counter by
exactly one. -/
theorem execOp_shape (op : Op) (s : Session) :
    (execOp op s).1.id = s.id ∧
    (((execOp op s).1.eventLog = s.eventLog ∧
      (execOp op s).1.seqCounter = s.seqCounter) ∨
     ∃ ev, (execOp op s).1.eventLog = s.eventLog ++ [ev] ∧
       ev.seq = s.seqCounter + 1 ∧
       (execOp op s).1.seqCounter = s.seqCounter + 1) := by
  cases op with
  | join uid now =>
    simp only [execOp]
    cases hres : s.join uid now with
    | ok s1 =>
      obtain ⟨h1, h2, h3⟩ := join_ok_fields s uid now s1 hres
      simp [h1, h2, h3]
    | error e => simp
  | start =>
    simp only [execOp]
    cases hres : s.start with
    | ok s1 =>
      obtain ⟨h1, h2, h3⟩ := start_ok_fields s s1 hres
      simp [h1, h2, h3]
    | error e => simp
  | pause =>
    simp only [execOp]
    cases hres : s.pause with
    | ok s1 =>
      obtain ⟨h1, h2, h3⟩ := pause_ok_fields s s1 hres
      simp [h1, h2, h3]
    | error e => simp
  | resume =>
    simp only [execOp]
    cases hres : s.resume with
    | ok s1 =>
      obtain ⟨h1, h2, h3⟩ := resume_ok_fields s s1 hres
      simp [h1, h2, h3]
    | error e => simp
  | complete =>
    simp only [execOp]
    cases hres : s.complete with
    | ok s1 =>
      obtain ⟨h1, h2, h3⟩ := complete_ok_fields s s1 hres
      simp [h1, h2, h3]
    | error e => simp
  | abandon =>
    simp only [execOp]
    cases hres : s.abandon with
    | ok s1 =>
      obtain ⟨h1, h2, h3⟩ := abandon_ok_fields s s1 hres
      simp [h1, h2, h3]
    | error e => simp
  | submit uid r now =>
    simp only [execOp]
    cases hres : submit s uid r now with
    | ok x =>
      obtain ⟨h1, h2, h3, h4, _⟩ := submit_ok_shape s uid r now x.1 x.2.1 x.2.2 (by rw [hres])
      refine ⟨?_, Or.inr ⟨x.2.1, ?_, h2, ?_⟩⟩ <;> simp [h1, h3, h4]
    | error e => simp

/-- In a terminal state every command fails: it mutates nothing and
broadcasts nothing. -/
theorem execOp_terminal_fixed (op : Op) (s : Session)
    (h : s.state.isTerminal = true) : execOp op s = (s, []) := by
  have h2 : s.state = .Completed ∨ s.state = .Abandoned := by
    revert h
    cases s.state <;> simp [SessionState.isTerminal]
  rcases h2 with h2 | h2 <;> cases op <;>
    simp [execOp, Session.join, Session.start, Session.pause, Session.resume,
      Session.complete, Session.abandon, submit, h2, SessionState.isTerminal]

/-- Modelled from the spec: replay an ordered event log against a
Session State Store by folding `applyEvent` over it (§8's replay
property); a stale event leaves the store untouched. -/
def replayLog (log : List TelemetryEvent) (s : Session) : Session :=
  log.foldl applyEventRun s

/-- Modelled from the spec: run a sequence of commands and collect every
snapshot they broadcast, in order (§4.3). -/
def runOpsB (ops : List Op) (s : Session) : Session × List SessionSnapshot :=
  match ops with
  | [] => (s, [])
  | op :: rest =>
    let x := execOp op s
    let y := runOpsB rest x.1
    (y.1, x.2 ++ y.2)

/-- Applying one event to one participant never changes who the
participant is. -/
theorem upd_userId (p : Participant) (e : TelemetryEvent) :
    (if p.userId == e.participantId then applyPayloadFor p e else p).userId
      = p.userId := by
  split <;> simp [applyPayloadFor]

/-- Folding a participant's own events of `e :: rest` equals first
absorbing `e` (when authored by the participant) and then folding its
events of `rest`. -/
theorem foldl_filter_cons (e : TelemetryEvent) (rest : List TelemetryEvent)
    (p : Participant) :
    (rest.filter (fun ev => ev.participantId == p.userId)).foldl applyPayloadFor
      (if p.userId == e.participantId then applyPayloadFor p e else p)
    = ((e :: rest).filter (fun ev => ev.participantId == p.userId)).foldl
        applyPayloadFor p := by
  by_cases hpe : e.participantId = p.userId
  · simp [List.filter_cons, hpe]
  · have : ¬ p.userId = e.participantId := fun hc => hpe hc.symm
    simp [List.filter_cons, hpe, this]

/-- Replaying a gapless in-order log: the final store state is computed
field by field from the initial state and the log alone — the counter
advances by the log's length, the log is appended, and every
participant's metrics are the fold of exactly their own events. -/
theorem replayLog_valid (log : List TelemetryEvent) (s : Session)
    (h : log.map (fun e => e.seq) = List.range' (s.seqCounter + 1) log.length) :
    replayLog log s =
      { s with
        participants := s.participants.map (fun p =>
          (log.filter (fun ev => ev.participantId == p.userId)).foldl
            applyPayloadFor p),
        seqCounter := s.seqCounter + log.length,
        eventLog := s.eventLog ++ log } := by
  induction log generalizing s with
  | nil => simp [replayLog]
  | cons e rest ih =>
    simp only [List.map_cons, List.length_cons, List.range'_succ,
      List.cons.injEq] at h
    obtain ⟨he, hrest⟩ := h
    have happ : applyEventRun s e =
        { s with
          participants := s.participants.map (fun p =>
            if p.userId == e.participantId then applyPayloadFor p e else p),
          seqCounter := e.seq,
          eventLog := s.eventLog ++ [e] } := by
      unfold applyEventRun applyEvent
      rw [if_neg (by simp [he])]
    have hrest' : rest.map (fun ev => ev.seq) =
        List.range' ((applyEventRun s e).seqCounter + 1) rest.length := by
      rw [happ]
      simpa [he] using hrest
    have := ih (applyEventRun s e) hrest'
    rw [replayLog] at this ⊢
    simp only [List.foldl_cons]
    rw [show (rest.foldl applyEventRun (applyEventRun s e)) = replayLog rest (applyEventRun s e) from rfl] at this ⊢
    rw [this, happ]
    simp only [List.map_map]
    have hfun : (fun p : Participant =>
        (rest.filter (fun ev => ev.participantId == p.userId)).foldl applyPayloadFor p) ∘
          (fun p : Participant =>
            if p.userId == e.participantId then applyPayloadFor p e else p)
        = fun p : Participant =>
          ((e :: rest).filter (fun ev => ev.participantId == p.userId)).foldl
            applyPayloadFor p := by
      funext p
      simp only [Function.comp]
      rw [upd_userId p e]
      exact foldl_filter_cons e rest p
    rw [hfun]
    simp [he, List.append_assoc]
    omega

/-- One command preserves the per-session sequence invariant: the log's
sequence numbers are exactly `1, 2, …, n` and the counter equals the
number of accepted events. -/
theorem execOp_seqInv (op : Op) (s : Session)
    (h1 : s.eventLog.map (fun e => e.seq) = List.range' 1 s.eventLog.length)
    (h2 : s.seqCounter = s.eventLog.length) :
    (execOp op s).1.eventLog.map (fun e => e.seq)
        = List.range' 1 (execOp op s).1.eventLog.length ∧
    (execOp op s).1.seqCounter = (execOp op s).1.eventLog.length := by
  obtain ⟨-, hcase⟩ := execOp_shape op s
  rcases hcase with ⟨hl, hc⟩ | ⟨ev, hl, hseq, hc⟩
  · rw [hl, hc]; exact ⟨h1, h2⟩
  · rw [hl, hc]
    constructor
    · rw [List.map_append, h1, List.length_append]
      have hconcat := @List.range'_concat 1 1 s.eventLog.length
      simp only [Nat.one_mul] at hconcat
      rw [Nat.add_comm 1 s.eventLog.length] at hconcat
      simp [hseq, h2, hconcat.symm]
    · simp [h2]

/-- A whole trace of commands preserves the per-session sequence
invariant. -/
theorem runOps_seqInv (ops : List Op) (s : Session)
    (h1 : s.eventLog.map (fun e => e.seq) = List.range' 1 s.eventLog.length)
    (h2 : s.seqCounter = s.eventLog.length) :
    (runOps ops s).eventLog.map (fun e => e.seq)
        = List.range' 1 (runOps ops s).eventLog.length ∧
    (runOps ops s).seqCounter = (runOps ops s).eventLog.length := by
  induction ops generalizing s with
  | nil => exact ⟨h1, h2⟩
  | cons op rest ih =>
    have hstep := execOp_seqInv op s h1 h2
    simp only [runOps, List.foldl_cons]
    exact ih (execOp op s).1 hstep.1 hstep.2

/-- Modelled from the spec: the exactly-once property of §4.2 phrased as
a registry invariant — every session's sequence counter equals the
number of events it has accepted. -/
def counterMatchesLog (st : Store) : Prop :=
  ∀ s ∈ st, s.seqCounter = s.eventLog.length

/-- One serialized registry mutation preserves the exactly-once
invariant for every session in the registry. -/
theorem execStoreOp_counter (st : Store) (sop : StoreOp)
    (h : counterMatchesLog st) : counterMatchesLog (execStoreOp st sop) := by
  intro s hs
  unfold execStoreOp at hs
  simp only [List.mem_map] at hs
  obtain ⟨t, ht, rfl⟩ := hs
  split
  · obtain ⟨-, hcase⟩ := execOp_shape sop.op t
    rcases hcase with ⟨hl, hc⟩ | ⟨ev, hl, -, hc⟩
    · rw [hl, hc]; exact h t ht
    · rw [hl, hc, List.length_append]
      simp [h t ht]
  · exact h t ht

/-! ## Part 3 — the claims -/

/-- Claim C1: the source contains no implementation of the live-session
coordination core — none of the operations the spec designs
(`applyEvent`, `getSnapshot`, `submit`, `publish`, `subscribe`,
`createSession`, `join`, `start`, `pause`, `resume`, `complete`) is
defined anywhere in the source, and the only executable application code
is the static landing page component `Home`. -/
theorem source_contains_no_core_implementation :
    coreOperationNames.all
      (fun n => !(sourceExecutableDefinitions.contains n)) = true ∧
    sourceExecutableDefinitions = ["Home"] := by
  decide

/-- Claim C2: for every session and every trace of commands starting
from a freshly created session, the sequence numbers of the accepted
events are exactly `1, 2, …, n` — strictly increasing, with no gaps, and
no two accepted events share a sequence number. -/
theorem session_sequence_numbers_strict_gapless (ops : List Op)
    (sid oid now : Nat) :
    ((runOps ops (createSession sid oid now)).eventLog.map (fun e => e.seq)
      = List.range' 1 (runOps ops (createSession sid oid now)).eventLog.length) ∧
    List.Chain' (· < ·)
      ((runOps ops (createSession sid oid now)).eventLog.map (fun e => e.seq)) ∧
    ((runOps ops (createSession sid oid now)).eventLog.map
      (fun e => e.seq)).Nodup := by
  have hinv := runOps_seqInv ops (createSession sid oid now) rfl rfl
  refine ⟨hinv.1, ?_, ?_⟩
  · rw [hinv.1, List.chain'_iff_pairwise]
    exact List.pairwise_lt_range' 1 _
  · rw [hinv.1]
    exact List.nodup_range' 1 _

/-- Claim C3: submitting any event to a session in the `Paused` or
`Completed` lifecycle state fails with `SessionClosedError` (hence with
`SessionClosedError` or `ValidationError`), and the failed submission
leaves the session — participants, metrics, sequence counter —
completely unchanged and broadcasts nothing. -/
theorem submit_rejected_when_paused_or_completed (s : Session) (uid : Nat)
    (r : RawEvent) (now : Nat)
    (h : s.state = .Paused ∨ s.state = .Completed) :
    (∃ err, submit s uid r now = .error err ∧
      (err = CoreError.SessionClosedError ∨ err = CoreError.ValidationError)) ∧
    execOp (Op.submit uid r now) s = (s, []) := by
  have hact : s.state ≠ .Active := by
    rcases h with h | h <;> simp [h]
  have hs : submit s uid r now = .error .SessionClosedError := by
    unfold submit
    rw [if_pos hact]
  exact ⟨⟨_, hs, Or.inl rfl⟩, by simp [execOp, hs]⟩

/-- A paused two-member session used as a concrete fixture. -/
def pausedSession : Session :=
  { id := 1, ownerId := 2, state := .Paused, createdAt := 0,
    participants := [freshParticipant 3 0], seqCounter := 0, eventLog := [] }

/-- A concrete raw event with a valid payload. -/
def sampleRaw : RawEvent :=
  { clientTimestamp := 5, payload := { strokeRate := 20, distanceDelta := 4 } }

/-- Witness for claim C3 at a concrete paused session. -/
theorem submit_rejected_when_paused_or_completed_witness :
    (∃ err, submit pausedSession 3 sampleRaw 6 = .error err ∧
      (err = CoreError.SessionClosedError ∨ err = CoreError.ValidationError)) ∧
    execOp (Op.submit 3 sampleRaw 6) pausedSession = (pausedSession, []) :=
  submit_rejected_when_paused_or_completed pausedSession 3 sampleRaw 6
    (Or.inl rfl)

/-- Claim C4: replay is deterministic — the snapshot obtained by
replaying an ordered, gapless event log against a Session State Store is
computed from the store's initial contents and the log alone (counter
advanced by the log's length, each participant's metrics the fold of
exactly that participant's events), so applying the same ordered log to
a fresh store always yields an identical final `SessionSnapshot`. -/
theorem replay_snapshot_deterministic (s : Session)
    (log : List TelemetryEvent)
    (h : log.map (fun e => e.seq) = List.range' (s.seqCounter + 1) log.length) :
    snapshotOf (replayLog log s) =
      { sessionId := s.id, state := s.state,
        seqCounter := s.seqCounter + log.length,
        participants := s.participants.map (fun p =>
          ((log.filter (fun ev => ev.participantId == p.userId)).foldl
            applyPayloadFor p).view) } := by
  rw [replayLog_valid log s h]
  simp [snapshotOf, List.map_map, Function.comp]

/-- An active one-member session used as a concrete fixture. -/
def activeSession : Session :=
  { id := 1, ownerId := 2, state := .Active, createdAt := 0,
    participants := [freshParticipant 3 0], seqCounter := 0, eventLog := [] }

/-- A concrete two-event in-order log for the replay witness. -/
def replayEvents : List TelemetryEvent :=
  [{ sessionId := 1, participantId := 3, clientTimestamp := 4,
     serverTimestamp := 5, seq := 1,
     payload := { strokeRate := 20, distanceDelta := 4 } },
   { sessionId := 1, participantId := 3, clientTimestamp := 6,
     serverTimestamp := 7, seq := 2,
     payload := { strokeRate := 21, distanceDelta := 5 } }]

/-- Witness for claim C4 at a concrete store and log. -/
theorem replay_snapshot_deterministic_witness :
    snapshotOf (replayLog replayEvents activeSession) =
      { sessionId := activeSession.id, state := activeSession.state,
        seqCounter := activeSession.seqCounter + replayEvents.length,
        participants := activeSession.participants.map (fun p =>
          ((replayEvents.filter (fun ev => ev.participantId == p.userId)).foldl
            applyPayloadFor p).view) } :=
  replay_snapshot_deterministic activeSession replayEvents (by decide)

/-- Claim C5: `Completed` and `Abandoned` are terminal — once a session
is in a terminal state, no trace of further commands ever accepts an
event or mutates the session, and no further snapshot is broadcast. -/
theorem terminal_states_absorb (s : Session) (ops : List Op)
    (h : s.state.isTerminal = true) :
    runOpsB ops s = (s, []) := by
  induction ops with
  | nil => rfl
  | cons op rest ih =>
    simp [runOpsB, execOp_terminal_fixed op s h, ih]

/-- A completed session used as a concrete fixture. -/
def completedSession : Session :=
  { id := 1, ownerId := 2, state := .Completed, createdAt := 0,
    participants := [freshParticipant 3 0], seqCounter := 2,
    eventLog := replayEvents }

/-- Witness for claim C5 at a concrete completed session and trace. -/
theorem terminal_states_absorb_witness :
    runOpsB [Op.start, Op.submit 3 sampleRaw 9, Op.join 4 1, Op.complete]
      completedSession = (completedSession, []) :=
  terminal_states_absorb completedSession
    [Op.start, Op.submit 3 sampleRaw 9, Op.join 4 1, Op.complete] rfl

/-- Claim C6: `applyEvent` fails with `StaleEventError` exactly when the
event's sequence number is not the expected next value (the counter plus
one); and an accepted event is appended at the end of the ordered log —
never silently reordered. -/
theorem applyEvent_stale_iff (s : Session) (e : TelemetryEvent) :
    (applyEvent s e = .error .StaleEventError ↔ e.seq ≠ s.seqCounter + 1) ∧
    (∀ s' snap, applyEvent s e = .ok (s', snap) →
      s'.eventLog = s.eventLog ++ [e]) := by
  constructor
  · constructor
    · intro h hc
      unfold applyEvent at h
      rw [if_neg (not_not_intro hc)] at h
      simp at h
    · intro hne
      unfold applyEvent
      rw [if_pos hne]
  · intro s' snap h
    unfold applyEvent at h
    by_cases hc : e.seq = s.seqCounter + 1
    · rw [if_neg (not_not_intro hc)] at h
      simp only [Except.ok.injEq, Prod.mk.injEq] at h
      obtain ⟨hs, -⟩ := h
      rw [← hs]
    · rw [if_pos hc] at h
      simp at h

/-- The event `replayEvents.head` applied to the concrete active
session, with a stale-free result extracted for the witness. -/
def appliedResult : Session × SessionSnapshot :=
  match applyEvent activeSession
      { sessionId := 1, participantId := 3, clientTimestamp := 4,
        serverTimestamp := 5, seq := 1,
        payload := { strokeRate := 20, distanceDelta := 4 } } with
  | .ok x => x
  | .error _ => (activeSession, snapshotOf activeSession)

/-- Witness for claim C6 at a concrete session and in-order event. -/
theorem applyEvent_stale_iff_witness :
    appliedResult.1.eventLog = activeSession.eventLog ++
      [{ sessionId := 1, participantId := 3, clientTimestamp := 4,
         serverTimestamp := 5, seq := 1,
         payload := { strokeRate := 20, distanceDelta := 4 } }] :=
  (applyEvent_stale_iff activeSession
      { sessionId := 1, participantId := 3, clientTimestamp := 4,
        serverTimestamp := 5, seq := 1,
        payload := { strokeRate := 20, distanceDelta := 4 } }).2
    appliedResult.1 appliedResult.2 rfl

/-- Claim C7: under arbitrary interleavings of serialized per-session
mutations (each registry step atomically targets exactly one session,
the spec's "one mutation in flight at a time per session"), every
session's sequence counter is incremented exactly once per accepted
event — it always equals the number of events that session has
accepted — and mutations targeting different sessions commute, so
different sessions proceed fully in parallel. -/
theorem store_exactly_once_and_parallel :
    (∀ (sops : List StoreOp) (st : Store), counterMatchesLog st →
      counterMatchesLog (runStore sops st)) ∧
    (∀ (st : Store) (a b : StoreOp), a.sid ≠ b.sid →
      execStoreOp (execStoreOp st a) b = execStoreOp (execStoreOp st b) a) := by
  constructor
  · intro sops
    induction sops with
    | nil => intro st h; exact h
    | cons sop rest ih =>
      intro st h
      simp only [runStore, List.foldl_cons]
      exact ih (execStoreOp st sop) (execStoreOp_counter st sop h)
  · intro st a b hab
    unfold execStoreOp
    rw [List.map_map, List.map_map]
    have hfun : ((fun s : Session => if s.id == b.sid then (execOp b.op s).1 else s) ∘
          (fun s : Session => if s.id == a.sid then (execOp a.op s).1 else s))
        = ((fun s : Session => if s.id == a.sid then (execOp a.op s).1 else s) ∘
          (fun s : Session => if s.id == b.sid then (execOp b.op s).1 else s)) := by
      funext s
      simp only [Function.comp]
      have hab' : b.sid ≠ a.sid := Ne.symm hab
      by_cases h1 : s.id = a.sid
      · have h2 : ¬ s.id = b.sid := by rw [h1]; exact hab
        have hid := (execOp_shape a.op s).1
        simp [h1, h2, hid, hab, hab']
      · by_cases h2 : s.id = b.sid
        · have hid := (execOp_shape b.op s).1
          simp [h1, h2, hid, hab, hab']
        · simp [h1, h2]
    rw [hfun]

/-- A concrete two-session registry for the claim C7 witness. -/
def twoSessionStore : Store :=
  [createSession 1 100 0, createSession 2 200 0]

/-- Witness for claim C7 at a concrete registry, trace and pair of
mutations targeting different sessions. -/
theorem store_exactly_once_and_parallel_witness :
    counterMatchesLog
      (runStore [{ sid := 1, op := Op.join 10 1 }, { sid := 2, op := Op.start }]
        twoSessionStore) ∧
    execStoreOp (execStoreOp twoSessionStore { sid := 1, op := Op.start })
        { sid := 2, op := Op.start }
      = execStoreOp (execStoreOp twoSessionStore { sid := 2, op := Op.start })
        { sid := 1, op := Op.start } :=
  ⟨store_exactly_once_and_parallel.1
      [{ sid := 1, op := Op.join 10 1 }, { sid := 2, op := Op.start }]
      twoSessionStore
      (by intro s hs
          simp only [twoSessionStore, List.mem_cons, List.mem_singleton] at hs
          rcases hs with rfl | rfl | hs
          · rfl
          · rfl
          · simp at hs),
   store_exactly_once_and_parallel.2 twoSessionStore
      { sid := 1, op := Op.start } { sid := 2, op := Op.start } (by decide)⟩

/-- A stroke submission for the scenario, with client timestamp `t`. -/
def strokeRaw (t : Nat) : RawEvent :=
  { clientTimestamp := t, payload := { strokeRate := 20, distanceDelta := 3 } }

/-- The concrete scenario trace of §8: create session `S` (owner 100),
join participants `A` (user 10) and `B` (user 20), `start`, then three
stroke submissions from `A` and two from `B`. -/
def scenarioOps : List Op :=
  [Op.join 10 1, Op.join 20 2, Op.start,
   Op.submit 10 (strokeRaw 3) 3, Op.submit 10 (strokeRaw 4) 4,
   Op.submit 10 (strokeRaw 5) 5, Op.submit 20 (strokeRaw 6) 6,
   Op.submit 20 (strokeRaw 7) 7]

/-- Claim C8: running the §8 scenario — create `S`, join `A` and `B`,
start, submit three strokes from `A` and two from `B` — the final
snapshot shows `A.strokeCount = 3`, `B.strokeCount = 2`, and the
sequence counter equals 5. -/
theorem scenario_final_snapshot :
    ((snapshotOf (runOps scenarioOps (createSession 1 100 0))).participants.map
      (fun v => (v.userId, v.strokeCount))) = [(10, 3), (20, 2)] ∧
    (snapshotOf (runOps scenarioOps (createSession 1 100 0))).seqCounter = 5 := by
  decide

/-- Claim C9: the landing page is a fixed placeholder — for any render
context, `Home` yields exactly one `Card`, titled `"Welcome to Rowing"`,
containing the one descriptive paragraph, and exactly two `Button`s,
`"Get Started"` then `"Learn More"`, the second with variant
`"outline"`. -/
theorem home_is_fixed_placeholder (ctx : RenderContext) :
    ((Home ctx).cards).length = 1 ∧
    (Home ctx).cardTitleTexts = ["Welcome to Rowing"] ∧
    (Home ctx).paragraphTexts =
      ["Track your rowing activities and compete with others in single and multiplayer sessions."] ∧
    (Home ctx).buttons =
      [UIElement.button none [UIElement.text "Get Started"],
       UIElement.button (some "outline") [UIElement.text "Learn More"]] := by
  refine ⟨?_, ?_, ?_, ?_⟩ <;>
    simp [Home, UIElement.cards, cardsList, UIElement.cardTitleTexts,
      cardTitleTextsList, UIElement.allTexts, allTextsList,
      UIElement.paragraphTexts, paragraphTextsList, UIElement.buttons,
      buttonsList]

/-- Claim C10: the `Home` page component is deterministic and
input-independent — it reads nothing from its render context, so any two
invocations return structurally equal element trees. -/
theorem home_input_independent (c₁ c₂ : RenderContext) :
    Home c₁ = Home c₂ :=
  rfl
